import Mathlib

/-!
Shallow embedding of the storefront cart domain layer of `src/index.js`:
the class `Product`, the class `CartItem` (a cart line), the class
`CartRepository` (the cart state and its mutations), the class
`ProductRepository` (the catalog snapshot and its fetch/lookup), and the
class `ShoppingCartUseCase` (the orchestrating use case).

Modelling conventions:
  * JavaScript identifier values (`p.id`), which the remote contract says are
    a number or a string, are modelled by the inductive `PId`; equality of
    two `PId`s models the strict `===` comparison the code performs (a
    number and a string are never strictly equal).
  * Prices are modelled by `ℚ`, quantities and deltas by `ℤ` (the code
    accepts any integer delta).
  * The mutable `this.items` array of `CartRepository` is a `List CartItem`
    threaded through each operation; in-place mutation of the element found
    by `Array.prototype.find` becomes replacement of the first matching
    element of the list.
  * `fetchAll` suspends on the network; its outcome is a parameter
    `response : Except FetchError (List RawRecord)`, either the parsed JSON
    array of records or the failure (network fault or malformed payload)
    carried as the thrown cause. The function returns the new snapshot
    state together with the value returned / error rethrown.
-/

namespace LojaOnline

/-- A JavaScript product-identifier value: a number or a string.  Equality
of `PId`s is strict equality (`===`): same type and same value. -/
inductive PId where
  | num : Int → PId
  | str : String → PId
  deriving DecidableEq

/-- Class `Product` (src/index.js lines 1-8). -/
structure Product where
  id : PId
  title : String
  price : ℚ
  image : String
  deriving DecidableEq

/-- Class `CartItem` (src/index.js lines 10-19): a product reference and a
quantity (the constructor default is 1). -/
structure CartItem where
  product : Product
  quantity : Int
  deriving DecidableEq

/-- Getter `CartItem.total` (src/index.js lines 16-18):
`this.product.price * this.quantity`. -/
def CartItem.total (it : CartItem) : ℚ :=
  it.product.price * (it.quantity : ℚ)

namespace CartRepository

/-- `CartRepository.addItem` (src/index.js lines 93-100): find the first
stored item with the same product id; if present increment its quantity in
place, otherwise push the new item at the end. -/
def addItem : List CartItem → CartItem → List CartItem
  | [], cartItem => [cartItem]
  | it :: rest, cartItem =>
    if it.product.id = cartItem.product.id then
      { it with quantity := it.quantity + 1 } :: rest
    else
      it :: addItem rest cartItem

/-- `CartRepository.removeItem` (src/index.js lines 102-104):
`this.items = this.items.filter(item => item.product.id !== productId)`. -/
def removeItem (items : List CartItem) (productId : PId) : List CartItem :=
  items.filter (fun it => it.product.id ≠ productId)

/-- `CartRepository.updateQuantity` (src/index.js lines 106-114): find the
first item with the given product id; if present add `delta` to its
quantity, and if the result is ≤ 0 call `removeItem` on the whole list;
if absent do nothing. -/
def updateQuantity : List CartItem → PId → Int → List CartItem
  | [], _, _ => []
  | it :: rest, productId, delta =>
    if it.product.id = productId then
      if it.quantity + delta ≤ 0 then
        removeItem ({ it with quantity := it.quantity + delta } :: rest) productId
      else
        { it with quantity := it.quantity + delta } :: rest
    else
      it :: updateQuantity rest productId delta

/-- `CartRepository.getItems` (src/index.js lines 116-118): returns the
stored array. -/
def getItems (items : List CartItem) : List CartItem :=
  items

/-- `CartRepository.getTotal` (src/index.js lines 120-122):
`this.items.reduce((sum, item) => sum + item.total, 0)`. -/
def getTotal (items : List CartItem) : ℚ :=
  items.foldl (fun sum it => sum + it.total) 0

/-- `CartRepository.getItemCount` (src/index.js lines 124-126):
`this.items.reduce((count, item) => count + item.quantity, 0)`. -/
def getItemCount (items : List CartItem) : Int :=
  items.foldl (fun count it => count + it.quantity) 0

/-- `CartRepository.clear` (src/index.js lines 128-130): `this.items = []`. -/
def clear (_items : List CartItem) : List CartItem :=
  []

end CartRepository

/-- One record of the remote JSON array (external interface of the catalog
source): fields `id`, `title`, `price`, `image`. -/
structure RawRecord where
  id : PId
  title : String
  price : ℚ
  image : String
  deriving DecidableEq

/-- The mapping `p => new Product(p.id, p.title, p.price, p.image)` applied
to each remote record in `fetchAll` (src/index.js line 75). -/
def parseRecord (p : RawRecord) : Product :=
  ⟨p.id, p.title, p.price, p.image⟩

/-- The failure of a remote retrieval (network fault or malformed payload),
carrying the underlying thrown cause; `fetchAll` catches it, logs, and
rethrows it unchanged (src/index.js lines 77-80). -/
structure FetchError where
  cause : String
  deriving DecidableEq

namespace ProductRepository

/-- `ProductRepository.fetchAll` (src/index.js lines 71-81): on a successful
response, map the records to `Product`s, assign the result to
`this.products` in one step, and return it; on failure, leave
`this.products` untouched and rethrow the error.  Returns
(new snapshot state, returned value or rethrown error). -/
def fetchAll (products : List Product) (response : Except FetchError (List RawRecord)) :
    List Product × Except FetchError (List Product) :=
  match response with
  | .ok data => (data.map parseRecord, .ok (data.map parseRecord))
  | .error e => (products, .error e)

/-- `ProductRepository.getById` (src/index.js lines 83-85):
`this.products.find(p => p.id === id)`; `none` models `undefined`. -/
def getById (products : List Product) (id : PId) : Option Product :=
  products.find? (fun p => p.id == id)

end ProductRepository

/-- The state held by the two repositories composed by
`ShoppingCartUseCase`: the catalog snapshot and the cart items. -/
structure UseCaseState where
  products : List Product
  items : List CartItem
  deriving DecidableEq

/-- The `{ items, total }` object returned by `checkout`
(src/index.js line 62). -/
structure CheckoutResult where
  items : List CartItem
  total : ℚ
  deriving DecidableEq

namespace ShoppingCartUseCase

/-- `ShoppingCartUseCase.getProducts` (src/index.js lines 27-29): delegates
to `ProductRepository.fetchAll` and propagates its result or error. -/
def getProducts (st : UseCaseState) (response : Except FetchError (List RawRecord)) :
    UseCaseState × Except FetchError (List Product) :=
  ({ st with products := (ProductRepository.fetchAll st.products response).1 },
    (ProductRepository.fetchAll st.products response).2)

/-- `ShoppingCartUseCase.addToCart` (src/index.js lines 31-36): resolve the
id via `getById`; if found, `addItem(new CartItem(product))` (constructor
quantity default 1); if not found, do nothing. -/
def addToCart (st : UseCaseState) (productId : PId) : UseCaseState :=
  match ProductRepository.getById st.products productId with
  | some product => { st with items := CartRepository.addItem st.items ⟨product, 1⟩ }
  | none => st

/-- `ShoppingCartUseCase.removeFromCart` (src/index.js lines 38-40). -/
def removeFromCart (st : UseCaseState) (productId : PId) : UseCaseState :=
  { st with items := CartRepository.removeItem st.items productId }

/-- `ShoppingCartUseCase.changeQuantity` (src/index.js lines 42-44). -/
def changeQuantity (st : UseCaseState) (productId : PId) (delta : Int) : UseCaseState :=
  { st with items := CartRepository.updateQuantity st.items productId delta }

/-- `ShoppingCartUseCase.getCartItems` (src/index.js lines 46-48). -/
def getCartItems (st : UseCaseState) : List CartItem :=
  CartRepository.getItems st.items

/-- `ShoppingCartUseCase.getCartTotal` (src/index.js lines 50-52). -/
def getCartTotal (st : UseCaseState) : ℚ :=
  CartRepository.getTotal st.items

/-- `ShoppingCartUseCase.getCartItemCount` (src/index.js lines 54-56). -/
def getCartItemCount (st : UseCaseState) : Int :=
  CartRepository.getItemCount st.items

/-- `ShoppingCartUseCase.checkout` (src/index.js lines 58-63): read `items`
and `total`, then `clear()`, then return `{ items, total }`.  Returns
(returned snapshot, post-call state). -/
def checkout (st : UseCaseState) : CheckoutResult × UseCaseState :=
  (⟨CartRepository.getItems st.items, CartRepository.getTotal st.items⟩,
    { st with items := CartRepository.clear st.items })

end ShoppingCartUseCase

/-- One cart operation, as enumerated by the spec's cart interface; the
cart runs single-threaded, each operation to completion. -/
inductive CartOp where
  | addItem (product : Product)
  | removeItem (productId : PId)
  | adjustQuantity (productId : PId) (delta : Int)
  | clear
  | checkout

/-- The effect of one cart operation on the cart state (`checkout`'s effect
on the cart is the state component of `ShoppingCartUseCase.checkout`). -/
def applyOp (items : List CartItem) : CartOp → List CartItem
  | .addItem p => CartRepository.addItem items ⟨p, 1⟩
  | .removeItem pid => CartRepository.removeItem items pid
  | .adjustQuantity pid delta => CartRepository.updateQuantity items pid delta
  | .clear => CartRepository.clear items
  | .checkout => ((ShoppingCartUseCase.checkout ⟨[], items⟩).2).items

/-- Cart state reached by a sequence of operations from the empty cart. -/
def runOps (ops : List CartOp) : List CartItem :=
  ops.foldl applyOp []

/-- The cart representation invariant of the spec: no two lines share a
product id, and every line's quantity is at least 1. -/
def CartInv (items : List CartItem) : Prop :=
  (items.map (fun it => it.product.id)).Nodup ∧ ∀ it ∈ items, 1 ≤ it.quantity

/-- Sample catalog product with id 1 and price 10.00. -/
def sampleProduct1 : Product :=
  ⟨PId.num 1, "Produto 1", 10, "img1.png"⟩

/-- Sample catalog product with id 2 and price 5.00. -/
def sampleProduct2 : Product :=
  ⟨PId.num 2, "Produto 2", 5, "img2.png"⟩

/-! ### Helper lemmas about the cart operations -/

theorem addItem_of_not_mem (items : List CartItem) (ci : CartItem)
    (h : ∀ it ∈ items, it.product.id ≠ ci.product.id) :
    CartRepository.addItem items ci = items ++ [ci] := by
  induction items with
  | nil => simp [CartRepository.addItem]
  | cons it rest ih =>
    have hit : it.product.id ≠ ci.product.id := h it (by simp)
    simp only [CartRepository.addItem, if_neg hit, List.cons_append, List.cons.injEq, true_and]
    exact ih (fun x hx => h x (by simp [hx]))

theorem addItem_of_found (l₁ : List CartItem) (it : CartItem) (l₂ : List CartItem)
    (ci : CartItem) (hid : it.product.id = ci.product.id)
    (h₁ : ∀ x ∈ l₁, x.product.id ≠ ci.product.id) :
    CartRepository.addItem (l₁ ++ it :: l₂) ci =
      l₁ ++ { it with quantity := it.quantity + 1 } :: l₂ := by
  induction l₁ with
  | nil => simp [CartRepository.addItem, hid]
  | cons x l₁ ih =>
    have hx : x.product.id ≠ ci.product.id := h₁ x (by simp)
    simp only [List.cons_append, CartRepository.addItem, if_neg hx, List.cons.injEq, true_and]
    exact ih (fun y hy => h₁ y (by simp [hy]))

theorem removeItem_of_not_mem (items : List CartItem) (pid : PId)
    (h : ∀ it ∈ items, it.product.id ≠ pid) :
    CartRepository.removeItem items pid = items := by
  simp only [CartRepository.removeItem]
  exact List.filter_eq_self.mpr (fun it hit => by simpa using h it hit)

theorem removeItem_sublist (items : List CartItem) (pid : PId) :
    (CartRepository.removeItem items pid).Sublist items :=
  List.filter_sublist items

theorem updateQuantity_of_not_mem (items : List CartItem) (pid : PId) (delta : Int)
    (h : ∀ it ∈ items, it.product.id ≠ pid) :
    CartRepository.updateQuantity items pid delta = items := by
  induction items with
  | nil => simp [CartRepository.updateQuantity]
  | cons it rest ih =>
    have hit : it.product.id ≠ pid := h it (by simp)
    simp only [CartRepository.updateQuantity, if_neg hit, List.cons.injEq, true_and]
    exact ih (fun x hx => h x (by simp [hx]))

theorem updateQuantity_of_found_pos (l₁ : List CartItem) (it : CartItem) (l₂ : List CartItem)
    (pid : PId) (delta : Int) (hid : it.product.id = pid)
    (h₁ : ∀ x ∈ l₁, x.product.id ≠ pid) (hq : 0 < it.quantity + delta) :
    CartRepository.updateQuantity (l₁ ++ it :: l₂) pid delta =
      l₁ ++ { it with quantity := it.quantity + delta } :: l₂ := by
  have hq' : ¬ it.quantity + delta ≤ 0 := by omega
  induction l₁ with
  | nil => simp [CartRepository.updateQuantity, hid, hq']
  | cons x l₁ ih =>
    have hx : x.product.id ≠ pid := h₁ x (by simp)
    have ih' := ih (fun y hy => h₁ y (by simp [hy]))
    simp only [List.cons_append, CartRepository.updateQuantity, if_neg hx, List.append_eq, ih']

theorem updateQuantity_of_found_del (l₁ : List CartItem) (it : CartItem) (l₂ : List CartItem)
    (pid : PId) (delta : Int) (hid : it.product.id = pid)
    (h₁ : ∀ x ∈ l₁, x.product.id ≠ pid) (hq : it.quantity + delta ≤ 0) :
    CartRepository.updateQuantity (l₁ ++ it :: l₂) pid delta =
      CartRepository.removeItem (l₁ ++ it :: l₂) pid := by
  induction l₁ with
  | nil =>
    simp only [List.nil_append, CartRepository.updateQuantity, if_pos hid, if_pos hq]
    simp [CartRepository.removeItem, List.filter_cons, hid]
  | cons x l₁ ih =>
    have hx : x.product.id ≠ pid := h₁ x (by simp)
    have ih' := ih (fun y hy => h₁ y (by simp [hy]))
    simp only [List.cons_append, CartRepository.updateQuantity, if_neg hx, List.append_eq, ih']
    simp [CartRepository.removeItem, List.filter_cons, hx]

theorem getTotal_foldl (l : List CartItem) (a : ℚ) :
    l.foldl (fun sum it => sum + it.total) a =
      a + (l.map (fun it => it.product.price * (it.quantity : ℚ))).sum := by
  induction l generalizing a with
  | nil => simp
  | cons it rest ih =>
    simp only [List.foldl_cons, ih, List.map_cons, List.sum_cons]
    simp only [CartItem.total]
    ring

theorem getItemCount_foldl (l : List CartItem) (a : Int) :
    l.foldl (fun count it => count + it.quantity) a =
      a + (l.map (fun it => it.quantity)).sum := by
  induction l generalizing a with
  | nil => simp
  | cons it rest ih =>
    simp only [List.foldl_cons, ih, List.map_cons, List.sum_cons]
    ring

/-! ### Preservation of the cart invariant -/

theorem addItem_map_id (items : List CartItem) (ci : CartItem) :
    (CartRepository.addItem items ci).map (fun it => it.product.id) =
      if ci.product.id ∈ items.map (fun it => it.product.id) then
        items.map (fun it => it.product.id)
      else
        items.map (fun it => it.product.id) ++ [ci.product.id] := by
  induction items with
  | nil => simp [CartRepository.addItem]
  | cons it rest ih =>
    by_cases hid : it.product.id = ci.product.id
    · simp [CartRepository.addItem, if_pos hid, hid]
    · simp only [CartRepository.addItem, if_neg hid, List.map_cons, ih]
      have hne : ci.product.id ≠ it.product.id := fun h => hid h.symm
      by_cases hmem : ci.product.id ∈ rest.map (fun it => it.product.id)
      · simp [hmem, hne]
      · simp [hmem, hne]

theorem addItem_quantity_ge (items : List CartItem) (ci : CartItem)
    (h : ∀ it ∈ items, 1 ≤ it.quantity) (hci : 1 ≤ ci.quantity) :
    ∀ it ∈ CartRepository.addItem items ci, 1 ≤ it.quantity := by
  induction items with
  | nil => simpa [CartRepository.addItem] using hci
  | cons x rest ih =>
    by_cases hid : x.product.id = ci.product.id
    · simp only [CartRepository.addItem, if_pos hid]
      intro it hit
      rcases List.mem_cons.mp hit with h1 | h2
      · have := h x (by simp)
        subst h1; simpa using by omega
      · exact h it (by simp [h2])
    · simp only [CartRepository.addItem, if_neg hid]
      intro it hit
      rcases List.mem_cons.mp hit with h1 | h2
      · subst h1; exact h it (by simp)
      · exact ih (fun y hy => h y (by simp [hy])) it h2

theorem updateQuantity_map_id_sublist (items : List CartItem) (pid : PId) (delta : Int) :
    ((CartRepository.updateQuantity items pid delta).map (fun it => it.product.id)).Sublist
      (items.map (fun it => it.product.id)) := by
  induction items with
  | nil => simp [CartRepository.updateQuantity]
  | cons it rest ih =>
    by_cases hid : it.product.id = pid
    · simp only [CartRepository.updateQuantity, if_pos hid]
      by_cases hq : it.quantity + delta ≤ 0
      · simp only [if_pos hq]
        have hs : (CartRepository.removeItem
            ({ it with quantity := it.quantity + delta } :: rest) pid).Sublist
            ({ it with quantity := it.quantity + delta } :: rest) :=
          removeItem_sublist _ _
        have := hs.map (fun it => it.product.id)
        simpa using this
      · simp [if_neg hq]
    · simp only [CartRepository.updateQuantity, if_neg hid, List.map_cons]
      exact ih.cons₂ _

theorem updateQuantity_quantity_ge (items : List CartItem) (pid : PId) (delta : Int)
    (h : ∀ it ∈ items, 1 ≤ it.quantity) :
    ∀ it ∈ CartRepository.updateQuantity items pid delta, 1 ≤ it.quantity := by
  induction items with
  | nil => simp [CartRepository.updateQuantity]
  | cons x rest ih =>
    by_cases hid : x.product.id = pid
    · simp only [CartRepository.updateQuantity, if_pos hid]
      by_cases hq : x.quantity + delta ≤ 0
      · simp only [if_pos hq]
        intro it hit
        have hmem := (List.mem_filter.mp hit)
        rcases List.mem_cons.mp hmem.1 with h1 | h2
        · exfalso
          have : ¬ (decide (it.product.id ≠ pid)) = true := by
            subst h1; simp [hid]
          simp only [CartRepository.removeItem] at hit
          rw [List.mem_filter] at hit
          exact this hit.2
        · exact h it (by simp [h2])
      · simp only [if_neg hq]
        intro it hit
        rcases List.mem_cons.mp hit with h1 | h2
        · subst h1; simpa using by omega
        · exact h it (by simp [h2])
    · simp only [CartRepository.updateQuantity, if_neg hid]
      intro it hit
      rcases List.mem_cons.mp hit with h1 | h2
      · subst h1; exact h it (by simp)
      · exact ih (fun y hy => h y (by simp [hy])) it h2

theorem cartInv_nil : CartInv [] := by
  constructor
  · simp
  · simp

theorem cartInv_applyOp (items : List CartItem) (op : CartOp) (h : CartInv items) :
    CartInv (applyOp items op) := by
  obtain ⟨hnd, hqt⟩ := h
  cases op with
  | addItem p =>
    simp only [applyOp]
    refine ⟨?_, addItem_quantity_ge items ⟨p, 1⟩ hqt (by simp)⟩
    rw [addItem_map_id]
    by_cases hmem : (⟨p, 1⟩ : CartItem).product.id ∈ items.map (fun it => it.product.id)
    · simpa [hmem] using hnd
    · simp only [if_neg hmem]
      simpa [List.nodup_append, hmem] using hnd
  | removeItem pid =>
    simp only [applyOp]
    refine ⟨?_, ?_⟩
    · exact hnd.sublist ((removeItem_sublist items pid).map _)
    · intro it hit
      exact hqt it ((removeItem_sublist items pid).mem hit)
  | adjustQuantity pid delta =>
    simp only [applyOp]
    refine ⟨?_, updateQuantity_quantity_ge items pid delta hqt⟩
    exact hnd.sublist (updateQuantity_map_id_sublist items pid delta)
  | clear => exact cartInv_nil
  | checkout => exact cartInv_nil

theorem cartInv_foldl (ops : List CartOp) :
    ∀ items, CartInv items → CartInv (ops.foldl applyOp items) := by
  induction ops with
  | nil => intro items h; simpa using h
  | cons op ops ih =>
    intro items h
    simpa [List.foldl_cons] using ih (applyOp items op) (cartInv_applyOp items op h)

theorem getById_some_id (products : List Product) (id : PId) (p : Product)
    (h : ProductRepository.getById products id = some p) : p.id = id := by
  have := List.find?_some h
  simpa using this

theorem getById_num_str_none (products : List Product) (s : String)
    (h : ∀ p ∈ products, ∃ n : Int, p.id = PId.num n) :
    ProductRepository.getById products (PId.str s) = none := by
  simp only [ProductRepository.getById]
  apply List.find?_eq_none.mpr
  intro p hp
  rcases h p hp with ⟨n, hn⟩
  simp [hn]

/-- Cart state after `addToCart(1)` twice on a catalog holding only
`sampleProduct1` (scenario of testable property 7 of the spec). -/
def scenarioSt2 : UseCaseState :=
  ShoppingCartUseCase.addToCart
    (ShoppingCartUseCase.addToCart ⟨[sampleProduct1], []⟩ (PId.num 1)) (PId.num 1)

/-- Scenario state after a further `changeQuantity(1, -1)`. -/
def scenarioSt3 : UseCaseState :=
  ShoppingCartUseCase.changeQuantity scenarioSt2 (PId.num 1) (-1)

/-- Scenario state after a second `changeQuantity(1, -1)`. -/
def scenarioSt4 : UseCaseState :=
  ShoppingCartUseCase.changeQuantity scenarioSt3 (PId.num 1) (-1)

theorem scenarioSt2_eq : scenarioSt2 = ⟨[sampleProduct1], [⟨sampleProduct1, 2⟩]⟩ := by
  decide

theorem scenarioSt3_eq : scenarioSt3 = ⟨[sampleProduct1], [⟨sampleProduct1, 1⟩]⟩ := by
  decide

theorem scenarioSt4_eq : scenarioSt4 = ⟨[sampleProduct1], []⟩ := by
  decide

/-! ### Claims -/

/-- C1: `checkout()` returns the pair (items, total) equal to the cart's
`items()` and `total()` as they were immediately before the call, and
immediately after the call the cart is empty: `items()` is the empty
sequence and `itemCount()` is 0.  In the single-threaded state-passing
model the read and the clear form one atomic step, so no intervening
mutation is observable between them. -/
theorem C1_checkout_snapshot_then_clear (st : UseCaseState) :
    (ShoppingCartUseCase.checkout st).1.items = ShoppingCartUseCase.getCartItems st ∧
    (ShoppingCartUseCase.checkout st).1.total = ShoppingCartUseCase.getCartTotal st ∧
    ShoppingCartUseCase.getCartItems (ShoppingCartUseCase.checkout st).2 = [] ∧
    ShoppingCartUseCase.getCartItemCount (ShoppingCartUseCase.checkout st).2 = 0 :=
  ⟨rfl, rfl, rfl, rfl⟩

/-- C2: every cart state reachable from the empty cart by a sequence of
operations (addItem, removeItem, adjustQuantity, clear, checkout) satisfies
the invariant: no two lines share a product id, and every line's quantity
is at least 1 (a line whose quantity would become ≤ 0 is absent). -/
theorem C2_cart_invariant (ops : List CartOp) : CartInv (runOps ops) :=
  cartInv_foldl ops [] cartInv_nil

/-- C3: if a line for the product's id already exists, `addItem` increments
that line's quantity by exactly 1, keeping the referenced Product instance
and every other line unchanged; otherwise it appends a new line with
quantity 1 at the end; adding the same product twice yields exactly one
line with quantity 2. -/
theorem C3_addItem_merge_or_append :
    (∀ (l₁ : List CartItem) (it : CartItem) (l₂ : List CartItem) (ci : CartItem),
        it.product.id = ci.product.id →
        (∀ x ∈ l₁, x.product.id ≠ ci.product.id) →
        CartRepository.addItem (l₁ ++ it :: l₂) ci =
          l₁ ++ { it with quantity := it.quantity + 1 } :: l₂) ∧
    (∀ (items : List CartItem) (ci : CartItem),
        (∀ it ∈ items, it.product.id ≠ ci.product.id) →
        CartRepository.addItem items ci = items ++ [ci]) ∧
    (∀ p : Product,
        CartRepository.addItem (CartRepository.addItem [] ⟨p, 1⟩) ⟨p, 1⟩ = [⟨p, 2⟩]) := by
  refine ⟨addItem_of_found, addItem_of_not_mem, ?_⟩
  intro p
  norm_num [CartRepository.addItem]

/-- Witness for C3 at concrete inputs. -/
theorem C3_addItem_merge_or_append_witness :
    CartRepository.addItem [⟨sampleProduct1, 1⟩] ⟨sampleProduct1, 1⟩ =
      [⟨sampleProduct1, 2⟩] ∧
    CartRepository.addItem [⟨sampleProduct1, 2⟩] ⟨sampleProduct2, 1⟩ =
      [⟨sampleProduct1, 2⟩, ⟨sampleProduct2, 1⟩] := by
  constructor
  · have h := C3_addItem_merge_or_append.1 [] ⟨sampleProduct1, 1⟩ []
      ⟨sampleProduct1, 1⟩ rfl (by simp)
    exact h.trans (by decide)
  · have h := C3_addItem_merge_or_append.2.1 [⟨sampleProduct1, 2⟩]
      ⟨sampleProduct2, 1⟩ (by decide)
    exact h.trans (by decide)

/-- C4: `adjustQuantity` (code: `updateQuantity`) on an existing line sets
its quantity to quantity + delta; a result ≤ 0 deletes the line entirely
(never clamped to 0 and kept); an absent id is a no-op; and the spec's
scenario: catalog {id 1, price 10.00}, two `addToCart(1)` give one line of
quantity 2 and total 20.00, `changeQuantity(1, -1)` gives quantity 1 and
total 10.00, a second one removes the line, giving total 0.00 and count 0. -/
theorem C4_updateQuantity_spec :
    (∀ (l₁ : List CartItem) (it : CartItem) (l₂ : List CartItem) (pid : PId) (delta : Int),
        it.product.id = pid → (∀ x ∈ l₁, x.product.id ≠ pid) →
        0 < it.quantity + delta →
        CartRepository.updateQuantity (l₁ ++ it :: l₂) pid delta =
          l₁ ++ { it with quantity := it.quantity + delta } :: l₂) ∧
    (∀ (l₁ : List CartItem) (it : CartItem) (l₂ : List CartItem) (pid : PId) (delta : Int),
        it.product.id = pid → (∀ x ∈ l₁, x.product.id ≠ pid) →
        it.quantity + delta ≤ 0 →
        CartRepository.updateQuantity (l₁ ++ it :: l₂) pid delta =
          CartRepository.removeItem (l₁ ++ it :: l₂) pid) ∧
    (∀ (items : List CartItem) (pid : PId) (delta : Int),
        (∀ it ∈ items, it.product.id ≠ pid) →
        CartRepository.updateQuantity items pid delta = items) ∧
    (scenarioSt2.items = [⟨sampleProduct1, 2⟩] ∧
      ShoppingCartUseCase.getCartTotal scenarioSt2 = 20 ∧
      scenarioSt3.items = [⟨sampleProduct1, 1⟩] ∧
      ShoppingCartUseCase.getCartTotal scenarioSt3 = 10 ∧
      scenarioSt4.items = [] ∧
      ShoppingCartUseCase.getCartTotal scenarioSt4 = 0 ∧
      ShoppingCartUseCase.getCartItemCount scenarioSt4 = 0) := by
  refine ⟨updateQuantity_of_found_pos, updateQuantity_of_found_del,
    updateQuantity_of_not_mem, ?_, ?_, ?_, ?_, ?_, ?_, ?_⟩
  · rw [scenarioSt2_eq]
  · rw [scenarioSt2_eq]
    norm_num [ShoppingCartUseCase.getCartTotal, CartRepository.getTotal,
      CartItem.total, sampleProduct1]
  · rw [scenarioSt3_eq]
  · rw [scenarioSt3_eq]
    norm_num [ShoppingCartUseCase.getCartTotal, CartRepository.getTotal,
      CartItem.total, sampleProduct1]
  · rw [scenarioSt4_eq]
  · rw [scenarioSt4_eq]
    norm_num [ShoppingCartUseCase.getCartTotal, CartRepository.getTotal]
  · rw [scenarioSt4_eq]
    norm_num [ShoppingCartUseCase.getCartItemCount, CartRepository.getItemCount]

/-- Witness for C4 at concrete inputs: decrementing a quantity-2 line keeps
it with quantity 1; decrementing a quantity-1 line deletes it. -/
theorem C4_updateQuantity_spec_witness :
    CartRepository.updateQuantity [⟨sampleProduct1, 2⟩] (PId.num 1) (-1) =
      [⟨sampleProduct1, 1⟩] ∧
    CartRepository.updateQuantity [⟨sampleProduct1, 1⟩] (PId.num 1) (-1) = [] ∧
    CartRepository.updateQuantity [⟨sampleProduct1, 2⟩] (PId.num 9) (-1) =
      [⟨sampleProduct1, 2⟩] := by
  refine ⟨?_, ?_, ?_⟩
  · have h := C4_updateQuantity_spec.1 [] ⟨sampleProduct1, 2⟩ [] (PId.num 1) (-1)
      rfl (by simp) (by decide)
    exact h.trans (by decide)
  · have h := C4_updateQuantity_spec.2.1 [] ⟨sampleProduct1, 1⟩ [] (PId.num 1) (-1)
      rfl (by simp) (by decide)
    exact h.trans (by decide)
  · exact C4_updateQuantity_spec.2.2.1 [⟨sampleProduct1, 2⟩] (PId.num 9) (-1) (by decide)

/-- C5: `total()` equals the sum over all current lines of price × quantity,
`itemCount()` equals the sum of quantities over all lines (total units),
and both are 0 on the empty cart. -/
theorem C5_totals (items : List CartItem) :
    CartRepository.getTotal items =
      (items.map (fun it => it.product.price * (it.quantity : ℚ))).sum ∧
    CartRepository.getItemCount items = (items.map (fun it => it.quantity)).sum ∧
    CartRepository.getTotal [] = 0 ∧ CartRepository.getItemCount [] = 0 := by
  refine ⟨?_, ?_, rfl, rfl⟩
  · simpa [CartRepository.getTotal] using getTotal_foldl items 0
  · simpa [CartRepository.getItemCount] using getItemCount_foldl items 0

/-- C6: a failed `fetchAll` does not modify the catalog snapshot — `getById`
returns the same result for every id as before the call — and the call
fails with the error carrying the underlying cause rather than
succeeding. -/
theorem C6_fetchAll_failure (products : List Product) (e : FetchError) :
    ProductRepository.fetchAll products (Except.error e) = (products, Except.error e) ∧
    ∀ id, ProductRepository.getById
        (ProductRepository.fetchAll products (Except.error e)).1 id =
      ProductRepository.getById products id :=
  ⟨rfl, fun _ => rfl⟩

/-- C7: absence is never an error: `removeFromCart` and `changeQuantity` on
an id not in the cart leave the use-case state (hence items, total and
count) unchanged, and `addToCart` with an id not found in the catalog
leaves the state unchanged; all three are total functions (no exception). -/
theorem C7_absence_noop :
    (∀ (st : UseCaseState) (pid : PId),
        (∀ it ∈ st.items, it.product.id ≠ pid) →
        ShoppingCartUseCase.removeFromCart st pid = st) ∧
    (∀ (st : UseCaseState) (pid : PId) (delta : Int),
        (∀ it ∈ st.items, it.product.id ≠ pid) →
        ShoppingCartUseCase.changeQuantity st pid delta = st) ∧
    (∀ (st : UseCaseState) (pid : PId),
        ProductRepository.getById st.products pid = none →
        ShoppingCartUseCase.addToCart st pid = st) := by
  refine ⟨?_, ?_, ?_⟩
  · intro st pid h
    simp [ShoppingCartUseCase.removeFromCart, removeItem_of_not_mem st.items pid h]
  · intro st pid delta h
    simp [ShoppingCartUseCase.changeQuantity,
      updateQuantity_of_not_mem st.items pid delta h]
  · intro st pid h
    simp [ShoppingCartUseCase.addToCart, h]

/-- Witness for C7 at concrete inputs (id 9 is in neither cart nor catalog). -/
theorem C7_absence_noop_witness :
    ShoppingCartUseCase.removeFromCart ⟨[sampleProduct1], [⟨sampleProduct1, 1⟩]⟩
        (PId.num 9) = ⟨[sampleProduct1], [⟨sampleProduct1, 1⟩]⟩ ∧
    ShoppingCartUseCase.changeQuantity ⟨[sampleProduct1], [⟨sampleProduct1, 1⟩]⟩
        (PId.num 9) (-1) = ⟨[sampleProduct1], [⟨sampleProduct1, 1⟩]⟩ ∧
    ShoppingCartUseCase.addToCart ⟨[sampleProduct1], [⟨sampleProduct1, 1⟩]⟩
        (PId.num 9) = ⟨[sampleProduct1], [⟨sampleProduct1, 1⟩]⟩ := by
  refine ⟨?_, ?_, ?_⟩
  · exact C7_absence_noop.1 _ (PId.num 9) (by decide)
  · exact C7_absence_noop.2.1 _ (PId.num 9) (-1) (by decide)
  · exact C7_absence_noop.2.2 _ (PId.num 9) (by decide)

/-- C8: cart line order is stable: `items()` returns the lines in stored
order; incrementing an existing line (addItem) or adjusting its quantity
(updateQuantity with positive result) changes only that line's quantity,
keeping its position, its product and all other lines; new lines are
appended at the end; removing a line keeps the remaining lines in their
relative order (the result is a sublist). -/
theorem C8_order_stable :
    (∀ items : List CartItem, CartRepository.getItems items = items) ∧
    (∀ (l₁ : List CartItem) (it : CartItem) (l₂ : List CartItem) (ci : CartItem),
        it.product.id = ci.product.id → (∀ x ∈ l₁, x.product.id ≠ ci.product.id) →
        CartRepository.addItem (l₁ ++ it :: l₂) ci =
          l₁ ++ { it with quantity := it.quantity + 1 } :: l₂) ∧
    (∀ (l₁ : List CartItem) (it : CartItem) (l₂ : List CartItem) (pid : PId) (delta : Int),
        it.product.id = pid → (∀ x ∈ l₁, x.product.id ≠ pid) →
        0 < it.quantity + delta →
        CartRepository.updateQuantity (l₁ ++ it :: l₂) pid delta =
          l₁ ++ { it with quantity := it.quantity + delta } :: l₂) ∧
    (∀ (items : List CartItem) (ci : CartItem),
        (∀ it ∈ items, it.product.id ≠ ci.product.id) →
        CartRepository.addItem items ci = items ++ [ci]) ∧
    (∀ (items : List CartItem) (pid : PId),
        (CartRepository.removeItem items pid).Sublist items) :=
  ⟨fun _ => rfl, addItem_of_found, updateQuantity_of_found_pos,
    addItem_of_not_mem, removeItem_sublist⟩

/-- Witness for C8 at concrete inputs: merging into the second of two lines
keeps both positions; a positive adjustment likewise. -/
theorem C8_order_stable_witness :
    CartRepository.addItem [⟨sampleProduct1, 1⟩, ⟨sampleProduct2, 1⟩]
        ⟨sampleProduct2, 1⟩ = [⟨sampleProduct1, 1⟩, ⟨sampleProduct2, 2⟩] ∧
    CartRepository.updateQuantity [⟨sampleProduct1, 1⟩, ⟨sampleProduct2, 3⟩]
        (PId.num 2) 1 = [⟨sampleProduct1, 1⟩, ⟨sampleProduct2, 4⟩] := by
  constructor
  · have h := C8_order_stable.2.1 [⟨sampleProduct1, 1⟩] ⟨sampleProduct2, 1⟩ []
      ⟨sampleProduct2, 1⟩ rfl (by decide)
    exact h.trans (by decide)
  · have h := C8_order_stable.2.2.1 [⟨sampleProduct1, 1⟩] ⟨sampleProduct2, 3⟩ []
      (PId.num 2) 1 rfl (by decide) (by decide)
    exact h.trans (by decide)

/-- C9: a successful `fetchAll` replaces the catalog snapshot entirely in
one step by the Products parsed from the response in source order (one
record mapped to one Product), returns the new sequence, and the new
snapshot does not depend on the previous one (a repeated successful fetch
fully replaces it). -/
theorem C9_fetchAll_success (products : List Product) (data : List RawRecord) :
    ProductRepository.fetchAll products (Except.ok data) =
      (data.map parseRecord, Except.ok (data.map parseRecord)) ∧
    (ProductRepository.fetchAll products (Except.ok data)).1.length = data.length ∧
    ∀ products' : List Product,
      (ProductRepository.fetchAll products' (Except.ok data)).1 =
        (ProductRepository.fetchAll products (Except.ok data)).1 :=
  ⟨rfl, by simp [ProductRepository.fetchAll], fun _ => rfl⟩

/-- C10: `getById` matches ids by strict equality (`===`): it returns a
product only if its id equals the argument in type and value; on a catalog
whose ids are all numbers, lookup with a string id reports not-found, and
`addToCart` with that string id is a no-op. -/
theorem C10_getById_strict :
    (∀ (products : List Product) (id : PId) (p : Product),
        ProductRepository.getById products id = some p → p.id = id) ∧
    (∀ (products : List Product) (s : String),
        (∀ p ∈ products, ∃ n : Int, p.id = PId.num n) →
        ProductRepository.getById products (PId.str s) = none) ∧
    (∀ (st : UseCaseState) (s : String),
        (∀ p ∈ st.products, ∃ n : Int, p.id = PId.num n) →
        ShoppingCartUseCase.addToCart st (PId.str s) = st) := by
  refine ⟨getById_some_id, getById_num_str_none, ?_⟩
  intro st s h
  simp [ShoppingCartUseCase.addToCart, getById_num_str_none st.products s h]

/-- Witness for C10: catalog [Product id 1]; lookup and addToCart with the
string id "1" are not-found / no-op. -/
theorem C10_getById_strict_witness :
    ProductRepository.getById [sampleProduct1] (PId.str "1") = none ∧
    ShoppingCartUseCase.addToCart ⟨[sampleProduct1], []⟩ (PId.str "1") =
      ⟨[sampleProduct1], []⟩ := by
  constructor
  · exact C10_getById_strict.2.1 [sampleProduct1] "1"
      (by intro p hp; rw [List.mem_singleton] at hp; subst hp; exact ⟨1, rfl⟩)
  · exact C10_getById_strict.2.2 ⟨[sampleProduct1], []⟩ "1"
      (by intro p hp; rw [List.mem_singleton] at hp; subst hp; exact ⟨1, rfl⟩)

end LojaOnline
